import Mathlib

/-!
Shallow embedding of `src/main.py` (ghiseul-monitor): the `GhiseulMonitor`
class — its two flow steps `_login` and `_debit`, the cycle `execute`, the
polling loop `run`, `quit`, the global `OUTPUT` cell and its JSON
serialization by the status endpoint.

The Selenium browser is an external collaborator; each primitive browser
operation a step performs (navigation, element wait/find, click, send_keys,
submit) is modelled by an environment field recording whether that call
raises an exception, in the exact order the Python code performs the calls.
A Python exception that is not caught is an `Except.error`; a `try/except
Exception` block catches every failure of the operations it encloses.
-/

/-- Python-level exceptions that can escape a call in our model:
`driverError` stands for any exception raised by a Selenium call
(e.g. `WebDriverException`, `TimeoutException`), `attrError` for Python's
`AttributeError` (attribute access on a missing attribute). -/
inductive PyErr
  | driverError
  | attrError
deriving DecidableEq, Repr

/-- `GhiseulMonitor.login_page`. -/
def login_page : String := "https://www.ghiseul.ro/ghiseul/public/"

/-- `GhiseulMonitor.debit_page`. -/
def debit_page : String := "https://www.ghiseul.ro/ghiseul/public/debite"

/-- `GhiseulMonitor.flows` — the configured flow names, in configured order. -/
def flows : List String := ["login", "debit"]

/-- Error message at `src/main.py:163` (source spelling preserved). -/
def loginFindMsg : String := "Could not find login for or input fields"

/-- Error message at `src/main.py:179`. -/
def loginFillMsg : String := "Could not fill in login form"

/-- Error message at `src/main.py:188`. -/
def loginSubmitMsg : String := "Could not submit login form"

/-- Error message at `src/main.py:218`. -/
def debitInstMsg : String := "Could not find institution element"

/-- Error message at `src/main.py:230` (source spelling preserved). -/
def debitShowMsg : String := "Could not find show button for instituion"

/-- Error message at `src/main.py:241` (source spelling preserved). -/
def debitPayMsg : String := "Could not find pay button for instituion"

/-- The primitive browser operations performed by the two flow steps, in
source order.  `navLogin` is `driver.get(login_page)`, `readUrl` is the read
of `driver.current_url`, the `find*` ops are the wait/find calls of the first
`try` block of `_login`, the click/keys ops its second block, `submitForm`
the third; `navDebit`, `waitInst`, `waitShow`, `clickShow`, `waitPay` are the
calls of `_debit`. -/
inductive Op
  | navLogin
  | readUrl
  | findForm
  | findUser
  | findPass
  | findPassT
  | clickUser
  | keysUser
  | clickPassT
  | clickPass
  | keysPass
  | submitForm
  | navDebit
  | waitInst
  | waitShow
  | clickShow
  | waitPay
deriving DecidableEq, Repr

instance {ε α : Type} [DecidableEq ε] [DecidableEq α] : DecidableEq (Except ε α) := fun a b =>
  match a, b with
  | .ok x, .ok y => decidable_of_iff (x = y) (by simp)
  | .error x, .error y => decidable_of_iff (x = y) (by simp)
  | .ok _, .error _ => isFalse (by simp)
  | .error _, .ok _ => isFalse (by simp)

/-- The outcome of running one flow step: the Python-level result
(`.error e` when an uncaught exception escapes the method, `.ok (b, msg)`
when the method returns the tuple `(b, msg)`), together with the list of
browser operations the step actually attempted, in order. -/
structure StepRun where
  result : Except PyErr (Bool × String)
  ops : List Op
deriving Repr

/-- Environment oracle for one execution of `GhiseulMonitor._login`: the
outcome of each browser call the method can make, in source order.
`currentUrl` is the value of `driver.current_url` after the initial
`driver.get(self.login_page)`. -/
structure LoginEnv where
  navRaises : Bool
  currentUrl : String
  findFormRaises : Bool
  findUserRaises : Bool
  findPassRaises : Bool
  findPassTRaises : Bool
  clickUserRaises : Bool
  keysUserRaises : Bool
  clickPassTRaises : Bool
  clickPassRaises : Bool
  keysPassRaises : Bool
  submitRaises : Bool
deriving Repr

/-- `GhiseulMonitor._login` (src/main.py:132-194).  `driver.get` at line 146
is outside every `try` block, so its exception escapes the method.  The
`current_url` comparison at line 149 short-circuits with `(True, "")`.  Each
of the three `try/except Exception` blocks catches any failure of the calls
it encloses and returns the corresponding `(False, message)` tuple. -/
def loginStep (env : LoginEnv) : StepRun :=
  if env.navRaises then ⟨.error .driverError, [.navLogin]⟩
  else if ¬ (env.currentUrl = login_page) then
    ⟨.ok (true, ""), [.navLogin, .readUrl]⟩
  else if env.findFormRaises then
    ⟨.ok (false, loginFindMsg), [.navLogin, .readUrl, .findForm]⟩
  else if env.findUserRaises then
    ⟨.ok (false, loginFindMsg), [.navLogin, .readUrl, .findForm, .findUser]⟩
  else if env.findPassRaises then
    ⟨.ok (false, loginFindMsg), [.navLogin, .readUrl, .findForm, .findUser, .findPass]⟩
  else if env.findPassTRaises then
    ⟨.ok (false, loginFindMsg), [.navLogin, .readUrl, .findForm, .findUser, .findPass, .findPassT]⟩
  else if env.clickUserRaises then
    ⟨.ok (false, loginFillMsg), [.navLogin, .readUrl, .findForm, .findUser, .findPass, .findPassT, .clickUser]⟩
  else if env.keysUserRaises then
    ⟨.ok (false, loginFillMsg), [.navLogin, .readUrl, .findForm, .findUser, .findPass, .findPassT, .clickUser, .keysUser]⟩
  else if env.clickPassTRaises then
    ⟨.ok (false, loginFillMsg), [.navLogin, .readUrl, .findForm, .findUser, .findPass, .findPassT, .clickUser, .keysUser, .clickPassT]⟩
  else if env.clickPassRaises then
    ⟨.ok (false, loginFillMsg), [.navLogin, .readUrl, .findForm, .findUser, .findPass, .findPassT, .clickUser, .keysUser, .clickPassT, .clickPass]⟩
  else if env.keysPassRaises then
    ⟨.ok (false, loginFillMsg), [.navLogin, .readUrl, .findForm, .findUser, .findPass, .findPassT, .clickUser, .keysUser, .clickPassT, .clickPass, .keysPass]⟩
  else if env.submitRaises then
    ⟨.ok (false, loginSubmitMsg), [.navLogin, .readUrl, .findForm, .findUser, .findPass, .findPassT, .clickUser, .keysUser, .clickPassT, .clickPass, .keysPass, .submitForm]⟩
  else
    ⟨.ok (true, ""), [.navLogin, .readUrl, .findForm, .findUser, .findPass, .findPassT, .clickUser, .keysUser, .clickPassT, .clickPass, .keysPass, .submitForm]⟩

/-- Environment oracle for one execution of `GhiseulMonitor._debit`:
`currentUrl` is the value of `driver.current_url` on entry (line 209);
`navRaises` the outcome of `driver.get(self.debit_page)`, which is only
performed when `currentUrl` differs from the debit page; the remaining
fields are the wait/click calls inside the three `try` blocks. -/
structure DebitEnv where
  currentUrl : String
  navRaises : Bool
  waitInstRaises : Bool
  waitShowRaises : Bool
  clickShowRaises : Bool
  waitPayRaises : Bool
deriving Repr

/-- `GhiseulMonitor._debit` (src/main.py:196-247).  The `current_url` read
and the conditional `driver.get(self.debit_page)` at lines 209-210 are
outside every `try` block, so a navigation exception escapes the method.
Each `try/except Exception` block converts any failure of its calls into
the corresponding `(False, message)` tuple. -/
def debitStep (env : DebitEnv) : StepRun :=
  if ¬ (env.currentUrl = debit_page) then
    if env.navRaises then ⟨.error .driverError, [.readUrl, .navDebit]⟩
    else if env.waitInstRaises then
      ⟨.ok (false, debitInstMsg), [.readUrl, .navDebit, .waitInst]⟩
    else if env.waitShowRaises then
      ⟨.ok (false, debitShowMsg), [.readUrl, .navDebit, .waitInst, .waitShow]⟩
    else if env.clickShowRaises then
      ⟨.ok (false, debitShowMsg), [.readUrl, .navDebit, .waitInst, .waitShow, .clickShow]⟩
    else if env.waitPayRaises then
      ⟨.ok (false, debitPayMsg), [.readUrl, .navDebit, .waitInst, .waitShow, .clickShow, .waitPay]⟩
    else
      ⟨.ok (true, ""), [.readUrl, .navDebit, .waitInst, .waitShow, .clickShow, .waitPay]⟩
  else
    if env.waitInstRaises then
      ⟨.ok (false, debitInstMsg), [.readUrl, .waitInst]⟩
    else if env.waitShowRaises then
      ⟨.ok (false, debitShowMsg), [.readUrl, .waitInst, .waitShow]⟩
    else if env.clickShowRaises then
      ⟨.ok (false, debitShowMsg), [.readUrl, .waitInst, .waitShow, .clickShow]⟩
    else if env.waitPayRaises then
      ⟨.ok (false, debitPayMsg), [.readUrl, .waitInst, .waitShow, .clickShow, .waitPay]⟩
    else
      ⟨.ok (true, ""), [.readUrl, .waitInst, .waitShow, .clickShow, .waitPay]⟩

example :
    (loginStep ⟨false, "https://www.ghiseul.ro/ghiseul/public/acasa", false, false, false,
      false, false, false, false, false, false, false⟩).result = .ok (true, "") := by decide

example :
    (debitStep ⟨debit_page, false, false, true, false, false⟩).result
      = .ok (false, debitShowMsg) := by decide

/-- Round a rational to the nearest integer with ties going to the even
integer — the rounding mode of Python's built-in `round`.  (The Python code
operates on floats; we idealise the measured durations as exact rationals.) -/
def roundHalfEven (x : ℚ) : ℤ :=
  if x - (⌊x⌋ : ℚ) < 1/2 then ⌊x⌋
  else if 1/2 < x - (⌊x⌋ : ℚ) then ⌊x⌋ + 1
  else if ⌊x⌋ % 2 = 0 then ⌊x⌋ else ⌊x⌋ + 1

/-- Python's `round(x, 2)` on our idealised rationals. -/
def round2 (x : ℚ) : ℚ := (roundHalfEven (100 * x) : ℚ) / 100

example : round2 (1/250) = 0 := by norm_num [round2, roundHalfEven]
example : round2 (1/250 + 1/250) = 1/100 := by norm_num [round2, roundHalfEven]

/-- The output dictionary built by `GhiseulMonitor.execute` — keys in the
insertion order of the class attribute `GhiseulMonitor.output`
(src/main.py:42-48).  `flows` is an insertion-ordered dict from flow name to
bool, modelled as an association list. -/
structure Snapshot where
  flows : List (String × Bool)
  success : Bool
  error : String
  duration : ℚ
  date : String
deriving DecidableEq, Repr

/-- The fresh deep copy of `GhiseulMonitor.output` with which each call of
`execute` starts (src/main.py:105). -/
def initOutput : Snapshot :=
  { flows := [], success := false, error := "", duration := 0, date := "" }

/-- Environment for one call of `execute`: the oracles for the two flow
steps, the per-flow wall-clock duration measured by the `time.time()` pair
around each step call (src/main.py:111-113), and the formatted
`datetime.now()` string (src/main.py:106). -/
structure CycleEnv where
  loginEnv : LoginEnv
  debitEnv : DebitEnv
  dur : String → ℚ
  now : String

/-- `getattr(self, f"_{flow}")()` (src/main.py:112): dynamic dispatch from a
flow name to the step method; an unknown name raises `AttributeError`. -/
def stepFor (env : CycleEnv) (flow : String) : Except PyErr (Bool × String) :=
  if flow = "login" then (loginStep env.loginEnv).result
  else if flow = "debit" then (debitStep env.debitEnv).result
  else .error .attrError

/-- `flow.upper()` — Python's `str.upper` on the ASCII flow names
(character-wise uppercase). -/
def upperStr (s : String) : String := ⟨s.data.map Char.toUpper⟩

example : upperStr "login" = "LOGIN" := by decide
example : upperStr "debit" = "DEBIT" := by decide

/-- The `for flow in self.flows` loop body of `execute`
(src/main.py:109-121): run the step (an uncaught step exception propagates
out of `execute`), record its boolean under the flow name, append
`"<FLOW_UPPER>: <err>; "` to `error` when the step's message is non-empty,
and set `duration` to `round(duration + flow_timer, 2)`. -/
def flowFold (env : CycleEnv) : List String → Snapshot → Except PyErr Snapshot
  | [], out => .ok out
  | flow :: rest, out =>
    match stepFor env flow with
    | .error e => .error e
    | .ok fr =>
      flowFold env rest
        { out with
          flows := out.flows ++ [(flow, fr.1)]
          error := if fr.2 = "" then out.error
            else out.error ++ upperStr flow ++ ": " ++ fr.2 ++ "; "
          duration := round2 (out.duration + env.dur flow) }

/-- `GhiseulMonitor.execute` (src/main.py:101-127): deep-copy the default
output, stamp the date, run all flows in configured order, then set
`success` to `False not in [output["flows"][f] for f in self.flows]`
(src/main.py:124; every configured key is present by then, so the `getD`
default is never consulted). -/
def execute (env : CycleEnv) : Except PyErr Snapshot :=
  match flowFold env flows { initOutput with date := env.now } with
  | .error e => .error e
  | .ok out =>
    .ok { out with
          success := !((flows.map (fun f => (out.flows.lookup f).getD false)).contains false) }

example :
    execute ⟨⟨false, "https://x/", false, false, false, false, false, false, false, false,
        false, false⟩,
      ⟨debit_page, false, false, true, false, false⟩, fun _ => 0, "2026-01-01 00:00:00"⟩
      = .ok { flows := [("login", true), ("debit", false)], success := false,
              error := "DEBIT: " ++ debitShowMsg ++ "; ", duration := 0,
              date := "2026-01-01 00:00:00" } := by
  norm_num [execute, flowFold, stepFor, loginStep, debitStep, initOutput, flows, round2,
    roundHalfEven, login_page, debit_page]
  decide

/-- The externally relevant events of one iteration of the `while True` body
of `GhiseulMonitor.run` (src/main.py:82-99), in program order:
`createDriver` = `self.__create_driver()`, `execCycle` = the call of
`self.execute()`, `publishOut` = the assignment `OUTPUT = ...`,
`sleepRefresh` = `time.sleep(refresh*60)`, `closeDriver` =
`self.driver.quit()`. -/
inductive RunEvent
  | createDriver
  | execCycle
  | publishOut
  | sleepRefresh
  | closeDriver
deriving DecidableEq, BEq, Repr

/-- The event sequence of one iteration of the loop body of `run`: the
ephemeral driver is created first (only when not persistent), then the cycle
runs and its output is published, then the loop sleeps, and only after the
sleep (and the counter increment) is the ephemeral driver closed
(src/main.py:85-99, note `driver.quit()` is the last statement of the
body, after `time.sleep`). -/
def iterEvents (persistent : Bool) : List RunEvent :=
  (if persistent then [] else [.createDriver])
    ++ [.execCycle, .publishOut, .sleepRefresh]
    ++ (if persistent then [] else [.closeDriver])

/-- The event sequence of the first `n` iterations of `GhiseulMonitor.run`. -/
def runEvents (persistent : Bool) : Nat → List RunEvent
  | 0 => []
  | n + 1 => iterEvents persistent ++ runEvents persistent n

example : runEvents false 1
    = [.createDriver, .execCycle, .publishOut, .sleepRefresh, .closeDriver] := by decide

/-- The lifecycle state of the Selenium driver object held in
`self.driver`. -/
inductive DriverState
  | active
  | closed
deriving DecidableEq, Repr

/-- The driver-related state of a `GhiseulMonitor` instance: `none` when the
attribute `self.driver` has never been assigned (no call of
`__create_driver` yet), `some st` once a driver exists. -/
structure MonitorState where
  driver : Option DriverState
deriving DecidableEq, Repr

/-- `GhiseulMonitor.__init__` (src/main.py:54-73): a driver is created up
front only in persistent mode; in ephemeral mode `self.driver` stays unset
until the first loop iteration. -/
def initState (persistent : Bool) : MonitorState :=
  { driver := if persistent then some .active else none }

/-- `GhiseulMonitor.quit` (src/main.py:129-130): `self.driver.quit()`
unconditionally.  Accessing `self.driver` when it was never assigned raises
`AttributeError`; Selenium's `quit()` on an existing driver succeeds and is
tolerated on an already-quit driver. -/
def quitMonitor (st : MonitorState) : Except PyErr MonitorState :=
  match st.driver with
  | none => .error .attrError
  | some _ => .ok { st with driver := some .closed }

/-- JSON values as produced by `flask.jsonify` on the `OUTPUT` dict. -/
inductive JVal
  | jbool (b : Bool)
  | jstr (s : String)
  | jnum (q : ℚ)
  | jobj (fs : List (String × JVal))
deriving Repr

/-- Serialization of a completed cycle output: dict keys in the insertion
order of `GhiseulMonitor.output` (src/main.py:42-48). -/
def snapshotJson (s : Snapshot) : JVal :=
  .jobj [("flows", .jobj (s.flows.map (fun p => (p.1, JVal.jbool p.2)))),
         ("success", .jbool s.success),
         ("error", .jstr s.error),
         ("duration", .jnum s.duration),
         ("date", .jstr s.date)]

/-- The global `OUTPUT` cell (src/main.py:22): it starts as the empty dict
`{}` (not as a copy of `GhiseulMonitor.output`), and is replaced wholesale
by `OUTPUT = self.execute()` (src/main.py:90).  `none` is the initial empty
dict. -/
def outputJson : Option Snapshot → JVal
  | none => .jobj []
  | some s => snapshotJson s

/-- The top-level keys of a serialized JSON object (what the body returned
by `monitor_route`, src/main.py:363-366, exposes). -/
def jvalKeys : JVal → List String
  | .jobj fs => fs.map Prod.fst
  | _ => []

/-- The sequence of snapshots the run loop publishes to `OUTPUT`, given the
cycle environments of the successive iterations: line 90 assigns each
completed `execute` result wholesale; an uncaught exception in a cycle
crashes the loop, so nothing is published from that iteration on. -/
def publishedValues : List CycleEnv → List Snapshot
  | [] => []
  | e :: es =>
    match execute e with
    | .ok s => s :: publishedValues es
    | .error _ => []

/-- Every value the `OUTPUT` cell ever holds: the initial empty dict
(`none`) followed by the published snapshots.  A concurrent reader
(`monitor_route`) reads the global binding, which is only ever rebound by
the single whole-value assignment at line 90, so any read observes exactly
one element of this history. -/
def observedValues (envs : List CycleEnv) : List (Option Snapshot) :=
  none :: (publishedValues envs).map some

/-- The `error` string `execute` accumulates from the two step results:
`"LOGIN: <msg>; "` then `"DEBIT: <msg>; "`, each appended only when the
step's message is non-empty. -/
def cycleError (lr dr : Bool × String) : String :=
  let e1 : String := if lr.2 = "" then "" else "" ++ upperStr "login" ++ ": " ++ lr.2 ++ "; "
  if dr.2 = "" then e1 else e1 ++ upperStr "debit" ++ ": " ++ dr.2 ++ "; "

/-- The snapshot `execute` returns when both steps return normally, as a
function of the two step results. -/
def cycleSnapshot (env : CycleEnv) (lr dr : Bool × String) : Snapshot :=
  { flows := [("login", lr.1), ("debit", dr.1)]
    success := lr.1 && dr.1
    error := cycleError lr dr
    duration := round2 (round2 (0 + env.dur "login") + env.dur "debit")
    date := env.now }

theorem execute_ok_eq (env : CycleEnv) (lr dr : Bool × String)
    (hl : (loginStep env.loginEnv).result = .ok lr)
    (hd : (debitStep env.debitEnv).result = .ok dr) :
    execute env = .ok (cycleSnapshot env lr dr) := by
  rcases lr with ⟨lb, le⟩
  rcases dr with ⟨db, de⟩
  simp only [execute, flows, flowFold, stepFor, hl, hd, initOutput, cycleSnapshot, cycleError]
  norm_num [List.lookup]
  cases lb <;> cases db <;> simp_all <;> decide

theorem execute_ok_elim (env : CycleEnv) (s : Snapshot) (h : execute env = .ok s) :
    ∃ lr dr, (loginStep env.loginEnv).result = .ok lr
      ∧ (debitStep env.debitEnv).result = .ok dr ∧ s = cycleSnapshot env lr dr := by
  cases hl : (loginStep env.loginEnv).result with
  | error e => simp [execute, flows, flowFold, stepFor, hl] at h
  | ok lr =>
    cases hd : (debitStep env.debitEnv).result with
    | error e => simp [execute, flows, flowFold, stepFor, hl, hd] at h
    | ok dr =>
      refine ⟨lr, dr, rfl, rfl, ?_⟩
      have h2 := execute_ok_eq env lr dr hl hd
      rw [h] at h2
      exact (Except.ok.injEq _ _).mp h2

/-- A `_login` environment in which every browser call succeeds and the
portal keeps the browser on the login page. -/
def okLoginEnv : LoginEnv :=
  ⟨false, login_page, false, false, false, false, false, false, false, false, false, false⟩

/-- A `_debit` environment in which the browser is already on the debit page
and every wait/click succeeds. -/
def okDebitEnv : DebitEnv := ⟨debit_page, false, false, false, false, false⟩

example : (loginStep okLoginEnv).result = .ok (true, "") := by decide
example : (debitStep okDebitEnv).result = .ok (true, "") := by decide

/-- C1: for every execution of a monitor cycle (`execute()`) that returns a
snapshot, the snapshot's `flows` mapping contains exactly the configured
flow names `["login", "debit"]`, in configured order, one boolean entry per
step: the entries are precisely the two steps' returned booleans, so a
failing step still contributes its `(false, message)` result and the later
step still runs and contributes its own entry — no entry is skipped. -/
theorem C1_cycle_flows_complete (env : CycleEnv) (s : Snapshot)
    (h : execute env = .ok s) :
    s.flows.map Prod.fst = flows ∧
    ∃ lr dr, (loginStep env.loginEnv).result = .ok lr
      ∧ (debitStep env.debitEnv).result = .ok dr
      ∧ s.flows = [("login", lr.1), ("debit", dr.1)] := by
  obtain ⟨lr, dr, hl, hd, hs⟩ := execute_ok_elim env s h
  subst hs
  exact ⟨by simp [cycleSnapshot, flows], lr, dr, hl, hd, rfl⟩

/-- Cycle in which step 1 (`_login`) fails at the form lookup and step 2
(`_debit`) succeeds. -/
def envC1 : CycleEnv :=
  ⟨⟨false, login_page, true, false, false, false, false, false, false, false, false, false⟩,
   okDebitEnv, fun _ => 0, "2026-01-01 12:00:00"⟩

/-- The snapshot `execute envC1` produces. -/
def snapC1 : Snapshot :=
  ⟨[("login", false), ("debit", true)], false,
   "LOGIN: Could not find login for or input fields; ", 0, "2026-01-01 12:00:00"⟩

theorem C1_cycle_flows_complete_witness :
    execute envC1 = .ok snapC1 ∧ snapC1.flows.map Prod.fst = flows := by
  have h : execute envC1 = .ok snapC1 := by
    norm_num [execute, flowFold, stepFor, loginStep, debitStep, initOutput, flows, round2,
      roundHalfEven, login_page, debit_page, envC1, snapC1, okDebitEnv, loginFindMsg]
    all_goals decide
  exact ⟨h, (C1_cycle_flows_complete envC1 snapC1 h).1⟩

/-- C2: in every snapshot returned by `execute()`, `success` equals the
conjunction of all the booleans stored in the `flows` mapping — it is true
iff every flow value is true, and it is a function of the final `flows`
content (computed at src/main.py:124, after the step loop), not an
independently cached flag. -/
theorem C2_success_iff_all_flows (env : CycleEnv) (s : Snapshot)
    (h : execute env = .ok s) :
    s.success = s.flows.all Prod.snd := by
  obtain ⟨lr, dr, hl, hd, hs⟩ := execute_ok_elim env s h
  subst hs
  simp [cycleSnapshot]

/-- Cycle in which both steps succeed. -/
def envC2 : CycleEnv := ⟨okLoginEnv, okDebitEnv, fun _ => 0, "2026-01-01 13:00:00"⟩

/-- The snapshot `execute envC2` produces. -/
def snapC2 : Snapshot :=
  ⟨[("login", true), ("debit", true)], true, "", 0, "2026-01-01 13:00:00"⟩

theorem C2_success_iff_all_flows_witness :
    execute envC2 = .ok snapC2 ∧ snapC2.success = snapC2.flows.all Prod.snd := by
  have h : execute envC2 = .ok snapC2 := by
    norm_num [execute, flowFold, stepFor, loginStep, debitStep, initOutput, flows, round2,
      roundHalfEven, login_page, debit_page, envC2, snapC2, okLoginEnv, okDebitEnv]
    all_goals decide
  exact ⟨h, C2_success_iff_all_flows envC2 snapC2 h⟩

/-- A `_login` environment in which `driver.get(self.login_page)` itself
raises. -/
def navFailLoginEnv : LoginEnv :=
  ⟨true, "", false, false, false, false, false, false, false, false, false, false⟩

/-- C3 counterexample: a failure during page navigation is NOT caught inside
the step — `driver.get` at src/main.py:146 is outside every `try` block, so
the exception propagates out of `_login` (and hence out of `execute` and the
polling loop) instead of being converted to a `(false, message)` result. -/
theorem C3_nav_failure_escapes_cex :
    (loginStep navFailLoginEnv).result = .error .driverError
    ∧ (loginStep navFailLoginEnv).result ≠ .ok (false, loginFindMsg)
    ∧ (loginStep navFailLoginEnv).result ≠ .ok (false, loginFillMsg)
    ∧ (loginStep navFailLoginEnv).result ≠ .ok (false, loginSubmitMsg)
    ∧ (loginStep navFailLoginEnv).result ≠ .ok (true, "") := by decide

/-- C3 (corrected): every failure raised inside the try-guarded
lookup/interaction sections of either step — including unknown exceptions,
since `except Exception` catches everything — is caught at the step boundary
and converted into one of the documented `(success, message)` results;
the step never lets such a failure escape.  (Navigation failures, by
contrast, are unguarded and escape: see the counterexample.) -/
theorem C3_guarded_failures_caught (envL : LoginEnv) (envD : DebitEnv)
    (hL : envL.navRaises = false)
    (hD : envD.currentUrl = debit_page ∨ envD.navRaises = false) :
    (loginStep envL).result ∈ [Except.ok (true, ""), .ok (false, loginFindMsg),
      .ok (false, loginFillMsg), .ok (false, loginSubmitMsg)]
    ∧ (debitStep envD).result ∈ [Except.ok (true, ""), .ok (false, debitInstMsg),
      .ok (false, debitShowMsg), .ok (false, debitPayMsg)] := by
  refine ⟨?_, ?_⟩
  · unfold loginStep
    rw [if_neg (by simp [hL])]
    by_cases hu : envL.currentUrl = login_page
    · rw [if_neg (by simp [hu])]
      by_cases h1 : envL.findFormRaises = true
      case pos => rw [if_pos h1]; decide
      rw [if_neg h1]
      by_cases h2 : envL.findUserRaises = true
      case pos => rw [if_pos h2]; decide
      rw [if_neg h2]
      by_cases h3 : envL.findPassRaises = true
      case pos => rw [if_pos h3]; decide
      rw [if_neg h3]
      by_cases h4 : envL.findPassTRaises = true
      case pos => rw [if_pos h4]; decide
      rw [if_neg h4]
      by_cases h5 : envL.clickUserRaises = true
      case pos => rw [if_pos h5]; decide
      rw [if_neg h5]
      by_cases h6 : envL.keysUserRaises = true
      case pos => rw [if_pos h6]; decide
      rw [if_neg h6]
      by_cases h7 : envL.clickPassTRaises = true
      case pos => rw [if_pos h7]; decide
      rw [if_neg h7]
      by_cases h8 : envL.clickPassRaises = true
      case pos => rw [if_pos h8]; decide
      rw [if_neg h8]
      by_cases h9 : envL.keysPassRaises = true
      case pos => rw [if_pos h9]; decide
      rw [if_neg h9]
      by_cases h10 : envL.submitRaises = true
      case pos => rw [if_pos h10]; decide
      rw [if_neg h10]
      decide
    · rw [if_pos hu]
      decide
  · unfold debitStep
    split
    · next hurl =>
      split
      · next hnav =>
        rcases hD with h | h
        · exact absurd h hurl
        · exact absurd hnav (by simp [h])
      · (repeat' split) <;> decide
    · (repeat' split) <;> decide

/-- A `_login` environment in which an (arbitrary, possibly unknown)
exception is raised while clicking the username field. -/
def clickFailLoginEnv : LoginEnv :=
  ⟨false, login_page, false, false, false, false, true, false, false, false, false, false⟩

theorem C3_guarded_failures_caught_witness :
    clickFailLoginEnv.navRaises = false
    ∧ (okDebitEnv.currentUrl = debit_page ∨ okDebitEnv.navRaises = false)
    ∧ ((loginStep clickFailLoginEnv).result ∈ [Except.ok (true, ""), .ok (false, loginFindMsg),
        .ok (false, loginFillMsg), .ok (false, loginSubmitMsg)]
      ∧ (debitStep okDebitEnv).result ∈ [Except.ok (true, ""), .ok (false, debitInstMsg),
        .ok (false, debitShowMsg), .ok (false, debitPayMsg)]) :=
  ⟨rfl, .inl rfl, C3_guarded_failures_caught clickFailLoginEnv okDebitEnv rfl (.inl rfl)⟩

/-- C4 counterexample: in ephemeral driver mode, one iteration of `run`
closes the session AFTER the sleep, not before it — `self.driver.quit()` is
the final statement of the loop body (src/main.py:99), after
`time.sleep(refresh*60)` (src/main.py:94). -/
theorem C4_close_before_sleep_cex :
    runEvents false 1 = [RunEvent.createDriver, .execCycle, .publishOut, .sleepRefresh,
      .closeDriver]
    ∧ ¬ ((runEvents false 1).indexOf RunEvent.closeDriver
          < (runEvents false 1).indexOf RunEvent.sleepRefresh) := by decide

/-- C4 (corrected): in ephemeral mode every iteration of `run` emits exactly
`create session, execute cycle, publish snapshot, sleep, close session` in
that order: the snapshot is written before the sleep, the session is closed
only after the sleep completes (at the very end of the iteration), and a
fresh session is created at the start of the next iteration, before that
cycle's first step executes. -/
theorem C4_ephemeral_iteration_order (n : Nat) :
    runEvents false n = List.flatten (List.replicate n
      [RunEvent.createDriver, .execCycle, .publishOut, .sleepRefresh, .closeDriver]) := by
  induction n with
  | zero => rfl
  | succ k ih => simp [runEvents, iterEvents, ih, List.replicate_succ]

/-- Cycle for the C5 scenario: login succeeds (already-authenticated
redirect), debit fails at the show-button wait. -/
def envC5 : CycleEnv :=
  ⟨⟨false, "https://www.ghiseul.ro/ghiseul/public/acasa", false, false, false, false, false,
    false, false, false, false, false⟩,
   ⟨debit_page, false, false, true, false, false⟩, fun _ => 0, "2026-01-02 03:04:05"⟩

/-- The snapshot `execute envC5` produces. -/
def snapC5 : Snapshot :=
  ⟨[("login", true), ("debit", false)], false,
   "DEBIT: Could not find show button for instituion; ", 0, "2026-01-02 03:04:05"⟩

/-- C5 counterexample: in the claimed scenario the step message and the
snapshot error use the source's spelling `"instituion"`
(src/main.py:230), not the claimed `"institution"`. -/
theorem C5_show_button_message_cex :
    execute envC5 = .ok snapC5
    ∧ snapC5.error ≠ "DEBIT: Could not find show button for institution; "
    ∧ (debitStep envC5.debitEnv).result ≠ .ok (false, "Could not find show button for institution") := by
  refine ⟨?_, by decide, by decide⟩
  norm_num [execute, flowFold, stepFor, loginStep, debitStep, initOutput, flows, round2,
    roundHalfEven, login_page, debit_page, envC5, snapC5, debitShowMsg]
  all_goals decide

/-- C5 (corrected): when the debit step's wait for the show-amounts-due
control times out or its click fails, the step returns
`(false, "Could not find show button for instituion")`; in a cycle where
login succeeds and debit fails there, the snapshot is
`flows = {login: true, debit: false}`, `success = false`,
`error = "DEBIT: Could not find show button for instituion; "`. -/
theorem C5_show_button_failure (env : CycleEnv)
    (hl : (loginStep env.loginEnv).result = .ok (true, ""))
    (hnav : env.debitEnv.currentUrl = debit_page ∨ env.debitEnv.navRaises = false)
    (hinst : env.debitEnv.waitInstRaises = false)
    (hshow : env.debitEnv.waitShowRaises = true ∨ env.debitEnv.clickShowRaises = true) :
    (debitStep env.debitEnv).result = .ok (false, debitShowMsg)
    ∧ execute env = .ok
        { flows := [("login", true), ("debit", false)], success := false
          error := "DEBIT: Could not find show button for instituion; "
          duration := round2 (round2 (0 + env.dur "login") + env.dur "debit")
          date := env.now } := by
  have hcase : env.debitEnv.waitShowRaises = true
      ∨ (env.debitEnv.waitShowRaises = false ∧ env.debitEnv.clickShowRaises = true) := by
    rcases hshow with h | h
    · exact .inl h
    · by_cases hw : env.debitEnv.waitShowRaises = true
      · exact .inl hw
      · exact .inr ⟨by simpa using hw, h⟩
  have hd : (debitStep env.debitEnv).result = .ok (false, debitShowMsg) := by
    by_cases hu : env.debitEnv.currentUrl = debit_page
    · rcases hcase with h | hc
      · simp [debitStep, hu, hinst, h]
      · simp [debitStep, hu, hinst, hc.1, hc.2]
    · have hn : env.debitEnv.navRaises = false := by
        rcases hnav with h | h
        · exact absurd h hu
        · exact h
      rcases hcase with h | hc
      · simp [debitStep, hu, hn, hinst, h]
      · simp [debitStep, hu, hn, hinst, hc.1, hc.2]
  refine ⟨hd, ?_⟩
  have he := execute_ok_eq env (true, "") (false, debitShowMsg) hl hd
  rw [he]
  have herr : cycleError (true, "") (false, debitShowMsg)
      = "DEBIT: Could not find show button for instituion; " := by decide
  simp [cycleSnapshot, herr]

theorem C5_show_button_failure_witness :
    (loginStep envC5.loginEnv).result = .ok (true, "")
    ∧ envC5.debitEnv.waitInstRaises = false
    ∧ (envC5.debitEnv.waitShowRaises = true ∨ envC5.debitEnv.clickShowRaises = true)
    ∧ (debitStep envC5.debitEnv).result = .ok (false, debitShowMsg) := by
  have h := C5_show_button_failure envC5 (by decide) (.inl rfl) rfl (.inl rfl)
  exact ⟨by decide, rfl, .inl rfl, h.1⟩

theorem roundHalfEven_nonneg (x : ℚ) (hx : 0 ≤ x) : 0 ≤ roundHalfEven x := by
  have hf : (0 : ℤ) ≤ ⌊x⌋ := Int.floor_nonneg.mpr hx
  unfold roundHalfEven
  split_ifs <;> omega

theorem round2_nonneg (x : ℚ) (hx : 0 ≤ x) : 0 ≤ round2 x := by
  unfold round2
  have h : (0 : ℚ) ≤ ((roundHalfEven (100 * x) : ℤ) : ℚ) := by
    exact_mod_cast roundHalfEven_nonneg (100 * x) (by positivity)
  exact div_nonneg h (by norm_num)

/-- Cycle in which both steps succeed and each step's measured wall-clock
duration is 1/250 s (= 0.004 s). -/
def envC6 : CycleEnv := ⟨okLoginEnv, okDebitEnv, fun _ => 1/250, "2026-01-03 00:00:00"⟩

/-- The snapshot `execute envC6` produces (note `duration = 0`). -/
def snapC6 : Snapshot :=
  ⟨[("login", true), ("debit", true)], true, "", 0, "2026-01-03 00:00:00"⟩

/-- C6 counterexample: with per-step durations of 0.004 s each, the stored
`duration` is 0 — `round(acc + timer, 2)` is applied after each step
(src/main.py:121), so each 0.004 rounds away — while the sum of the
individually measured per-step durations rounded to 2 decimals is
`round2(0.008) = 0.01`.  The claimed equality fails. -/
theorem C6_duration_not_rounded_sum_cex :
    execute envC6 = .ok snapC6
    ∧ snapC6.duration = 0
    ∧ round2 (envC6.dur "login" + envC6.dur "debit") = 1/100
    ∧ ((0 : ℚ) ≠ 1/100) := by
  refine ⟨?_, rfl, by norm_num [envC6, round2, roundHalfEven], by norm_num⟩
  norm_num [execute, flowFold, stepFor, loginStep, debitStep, initOutput, flows, round2,
    roundHalfEven, login_page, debit_page, envC6, snapC6, okLoginEnv, okDebitEnv]
  all_goals decide

/-- C6 (corrected): the snapshot's `duration` equals the iterated value
obtained by starting from 0 and, for each step in order, adding that step's
measured duration and rounding the accumulator to 2 decimals — which is not
in general the sum of the durations rounded once — and it is nonnegative
whenever both measured per-step durations are nonnegative. -/
theorem C6_duration_iterated_rounding (env : CycleEnv) (s : Snapshot)
    (h : execute env = .ok s)
    (h1 : 0 ≤ env.dur "login") (h2 : 0 ≤ env.dur "debit") :
    s.duration = round2 (round2 (0 + env.dur "login") + env.dur "debit")
    ∧ 0 ≤ s.duration := by
  obtain ⟨lr, dr, hl, hd, hs⟩ := execute_ok_elim env s h
  subst hs
  refine ⟨rfl, ?_⟩
  have ha : (0 : ℚ) ≤ round2 (0 + env.dur "login") := round2_nonneg _ (by linarith)
  exact round2_nonneg _ (by linarith)

theorem C6_duration_iterated_rounding_witness :
    ((0 : ℚ) ≤ envC6.dur "login") ∧ ((0 : ℚ) ≤ envC6.dur "debit")
    ∧ execute envC6 = .ok snapC6
    ∧ snapC6.duration = round2 (round2 (0 + envC6.dur "login") + envC6.dur "debit")
    ∧ 0 ≤ snapC6.duration := by
  have he : execute envC6 = .ok snapC6 := by
    norm_num [execute, flowFold, stepFor, loginStep, debitStep, initOutput, flows, round2,
      roundHalfEven, login_page, debit_page, envC6, snapC6, okLoginEnv, okDebitEnv]
    all_goals decide
  have h := C6_duration_iterated_rounding envC6 snapC6 he (by norm_num [envC6])
    (by norm_num [envC6])
  exact ⟨by norm_num [envC6], by norm_num [envC6], he, h.1, h.2⟩

/-- C7: whenever the initial navigation succeeds and the post-navigation
location differs from the login page, `_login` returns `(true, "")`
immediately, and the only browser operations attempted are the navigation
and the URL read — no form/field lookup and no fill/submit is attempted.
This is the already-authenticated short-circuit of src/main.py:148-152. -/
theorem C7_login_short_circuit (env : LoginEnv)
    (hn : env.navRaises = false) (hu : env.currentUrl ≠ login_page) :
    loginStep env = ⟨.ok (true, ""), [.navLogin, .readUrl]⟩ := by
  unfold loginStep
  rw [if_neg (by simp [hn]), if_pos hu]

/-- A redirected (already-authenticated) login environment in which every
lookup/interaction call would raise if it were attempted. -/
def redirectLoginEnv : LoginEnv :=
  ⟨false, "https://www.ghiseul.ro/ghiseul/public/acasa", true, true, true, true, true, true,
   true, true, true, true⟩

theorem C7_login_short_circuit_witness :
    redirectLoginEnv.navRaises = false
    ∧ redirectLoginEnv.currentUrl ≠ login_page
    ∧ loginStep redirectLoginEnv = ⟨.ok (true, ""), [.navLogin, .readUrl]⟩ :=
  ⟨rfl, by decide, C7_login_short_circuit redirectLoginEnv rfl (by decide)⟩

/-- C8 counterexample: before the first cycle completes, the endpoint
serves the initial `OUTPUT = {}` (src/main.py:22) — the store history with
no completed cycle holds only the empty mapping, whose serialization has no
`flows` field (nor any of the other four documented fields). -/
theorem C8_prefirst_read_shape_cex :
    observedValues [] = [none]
    ∧ jvalKeys (outputJson none) = []
    ∧ ¬ ("flows" ∈ jvalKeys (outputJson none)) := ⟨rfl, rfl, by decide⟩

/-- C8 (corrected): any read served after a completed cycle carries exactly
the five documented fields, in order `flows, success, error, duration,
date`; but the pre-first-cycle default is the well-defined EMPTY mapping
`{}`, which contains none of those fields. -/
theorem C8_serialized_fields (s : Snapshot) :
    jvalKeys (outputJson (some s)) = ["flows", "success", "error", "duration", "date"]
    ∧ jvalKeys (outputJson none) = [] := ⟨rfl, rfl⟩

/-- C9 counterexample: `quit` is not a safe no-op when no session has ever
been created: in ephemeral mode before the first cycle, `self.driver` was
never assigned, so `self.driver.quit()` (src/main.py:130) raises
`AttributeError`. -/
theorem C9_quit_without_driver_cex :
    quitMonitor (initState false) = .error .attrError
    ∧ (initState false).driver = none := ⟨rfl, rfl⟩

/-- C9 (corrected): whenever a driver exists, `quit` closes it and is
idempotent — calling it again succeeds with no further state change; but
when no driver was ever created (ephemeral mode before the first cycle),
`quit` raises `AttributeError` rather than being a safe no-op. -/
theorem C9_quit_closes_and_idempotent (st : MonitorState) (d : DriverState)
    (h : st.driver = some d) :
    quitMonitor st = .ok { driver := some .closed }
    ∧ quitMonitor { driver := some DriverState.closed } = .ok { driver := some .closed }
    ∧ quitMonitor (initState false) = .error .attrError := by
  refine ⟨?_, rfl, rfl⟩
  simp [quitMonitor, h]

theorem C9_quit_closes_and_idempotent_witness :
    (initState true).driver = some DriverState.active
    ∧ quitMonitor (initState true) = .ok { driver := some .closed }
    ∧ quitMonitor { driver := some DriverState.closed } = .ok { driver := some .closed } := by
  have h := C9_quit_closes_and_idempotent (initState true) .active rfl
  exact ⟨rfl, h.1, h.2.1⟩

theorem publishedValues_shape (envs : List CycleEnv) (s : Snapshot)
    (hs : s ∈ publishedValues envs) :
    s.flows.map Prod.fst = flows ∧ s.success = s.flows.all Prod.snd := by
  induction envs with
  | nil => simp [publishedValues] at hs
  | cons e es ih =>
    simp only [publishedValues] at hs
    revert hs
    cases he : execute e with
    | error er => intro hs; simp at hs
    | ok s0 =>
      intro hs
      rcases List.mem_cons.mp hs with h | h
      · rw [h]
        obtain ⟨lr, dr, hl, hd, hsnap⟩ := execute_ok_elim e s0 he
        subst hsnap
        exact ⟨by simp [cycleSnapshot, flows], by simp [cycleSnapshot]⟩
      · exact ih h

/-- C10: every value the `OUTPUT` store ever holds — hence everything any
concurrent reader can observe — is either the well-defined initial empty
value or a completely built snapshot of a finished cycle.  The writer's only
store mutation is the single wholesale assignment `OUTPUT = self.execute()`
(src/main.py:90) of a locally built dict, so there is no intermediate
field-by-field state; and every published snapshot is internally consistent:
its `flows` holds exactly the configured flow names and its `success` equals
the conjunction of the flow booleans, so `success = true` alongside a false
flow entry can never be observed. -/
theorem C10_reader_never_sees_partial (envs : List CycleEnv) (v : Option Snapshot)
    (hv : v ∈ observedValues envs) :
    v = none ∨ ∃ s, v = some s ∧ s.flows.map Prod.fst = flows
      ∧ s.success = s.flows.all Prod.snd := by
  rcases List.mem_cons.mp hv with h | h
  · exact .inl h
  · obtain ⟨s, hs, rfl⟩ := List.mem_map.mp h
    exact .inr ⟨s, rfl, (publishedValues_shape envs s hs).1, (publishedValues_shape envs s hs).2⟩

/-- Cycle used for the C10 witness. -/
def envC10 : CycleEnv := ⟨okLoginEnv, okDebitEnv, fun _ => 0, "2026-01-04 00:00:00"⟩

/-- The snapshot `execute envC10` produces. -/
def snapC10 : Snapshot :=
  ⟨[("login", true), ("debit", true)], true, "", 0, "2026-01-04 00:00:00"⟩

theorem C10_reader_never_sees_partial_witness :
    (some snapC10 ∈ observedValues [envC10])
    ∧ (some snapC10 = none ∨ ∃ s, some snapC10 = some s ∧ s.flows.map Prod.fst = flows
        ∧ s.success = s.flows.all Prod.snd) := by
  have he : execute envC10 = .ok snapC10 := by
    norm_num [execute, flowFold, stepFor, loginStep, debitStep, initOutput, flows, round2,
      roundHalfEven, login_page, debit_page, envC10, snapC10, okLoginEnv, okDebitEnv]
    all_goals decide
  have hv : some snapC10 ∈ observedValues [envC10] := by
    simp [observedValues, publishedValues, he]
  exact ⟨hv, C10_reader_never_sees_partial [envC10] (some snapC10) hv⟩
